import Mathlib

/-!
Verification of the `record_latency` instrumentation wrapper from
`src/main_az.py` (lines 31-48).  The wrapper is embedded shallowly: the
wrapped operation, the metrics sink (`histogram.record`) and the clock
(`time.time`) are parameters of an environment, and one invocation of the
wrapped operation is a pure function from the environment and the call
arguments to the caller-visible outcome plus the side effects (the list of
measurements successfully recorded to the sink, and the final contents of
the wrapper-local keyword-argument dict).
-/

/-- A Python exception as the wrapper distinguishes it: either an instance
of `Exception` (caught by `except Exception as err`) or a `BaseException`
that is not an `Exception` (e.g. `KeyboardInterrupt`, `SystemExit`), which
the handler at line 42 does not catch.  The payload is what `str(err)`
returns. -/
inductive PyExc where
  | exception (msg : String)
  | baseException (msg : String)
deriving DecidableEq, Repr

/-- Whether the exception is an instance of `Exception`, i.e. whether the
`except Exception` clause at line 42 catches it. -/
def PyExc.isException : PyExc → Bool
  | .exception _ => true
  | .baseException _ => false

/-- `str(err)`, as used at line 44. -/
def PyExc.toStr : PyExc → String
  | .exception m => m
  | .baseException m => m

/-- A Python dict with string keys and string values, as an ordered
association list with unique keys (insertion order, as Python dicts). -/
abbrev AttrDict := List (String × String)

/-- `d[k] = v`: update in place if the key exists, otherwise append,
matching Python dict assignment. -/
def dictSet (d : AttrDict) (k v : String) : AttrDict :=
  if d.any (fun p => p.1 = k) then
    d.map (fun p => if p.1 = k then (k, v) else p)
  else
    d ++ [(k, v)]

/-- `k in d`. -/
def dictHasKey (d : AttrDict) (k : String) : Bool :=
  d.any (fun p => p.1 = k)

/-- Everything one invocation of the wrapped operation leaves behind. -/
structure CallResult (α : Type) where
  /-- What the caller observes: the returned value or the propagated
  exception. -/
  outcome : Except PyExc α
  /-- The measurements successfully recorded to the histogram, in order;
  each is a duration in milliseconds together with the attribute dict
  passed to `histogram.record`.  A `record` call that itself raises records
  nothing. -/
  records : List (ℚ × AttrDict)
  /-- The contents of the wrapper-local `kwargs` dict when the invocation
  ends (line 44 mutates it in place on the failure path). -/
  finalKwargs : AttrDict
deriving Repr

/-- The ambient behaviour a single invocation runs against. -/
structure Env (α : Type) where
  /-- The wrapped operation `func`: its outcome on the given positional and
  keyword arguments. -/
  func : List α → AttrDict → Except PyExc α
  /-- `histogram.record`: `none` when the call returns normally, `some e`
  when it raises `e`. -/
  sink : ℚ → AttrDict → Option PyExc
  /-- Successive readings of `time.time()`, in seconds; reading `i` is the
  (i+1)-th call the invocation makes. -/
  clock : ℕ → ℚ

/-- Lines 42-46, the `except Exception as err:` block: recompute the
duration from the same `start`, set `kwargs["error"] = str(err)` in place,
record, and `raise err`.  `idx` is the index of the next `time.time()`
reading, `recs` the measurements recorded so far.  A `record` call that
raises propagates its own exception out of the handler. -/
def exceptBlock (env : Env α) (start : ℚ) (idx : ℕ) (recs : List (ℚ × AttrDict))
    (kwargs : AttrDict) (err : PyExc) : CallResult α :=
  let duration_ms := (env.clock idx - start) * 1000
  let kwargs2 := dictSet kwargs "error" err.toStr
  match env.sink duration_ms kwargs2 with
  | some e2 => ⟨.error e2, recs, kwargs2⟩
  | none => ⟨.error err, recs ++ [(duration_ms, kwargs2)], kwargs2⟩

/-- Lines 35-46: one invocation of the `wrapper` closure produced by
`record_latency`.  `start = time.time()`; then the `try` body calls
`func(*args, **kwargs)`, computes the duration, records it and returns the
result; any `Exception` raised in the body (by `func` or by
`histogram.record`) goes to `exceptBlock`; a non-`Exception`
`BaseException` propagates uncaught. -/
def wrapper (env : Env α) (args : List α) (kwargs : AttrDict) : CallResult α :=
  let start := env.clock 0
  match env.func args kwargs with
  | .ok result =>
      let duration_ms := (env.clock 1 - start) * 1000
      match env.sink duration_ms kwargs with
      | none => ⟨.ok result, [(duration_ms, kwargs)], kwargs⟩
      | some e =>
          if e.isException then exceptBlock env start 2 [] kwargs e
          else ⟨.error e, [], kwargs⟩
  | .error err =>
      if err.isException then exceptBlock env start 1 [] kwargs err
      else ⟨.error err, [], kwargs⟩

/-- The decorator `record_latency` itself: given the ambient histogram and
clock and the function to wrap, it returns the wrapped callable. -/
def record_latency (env : Env α) : List α → AttrDict → CallResult α :=
  wrapper env

/-! ### Concrete environments used by witnesses and counterexamples -/

/-- A succeeding operation, a sink that never raises, and the clock reading
`i` seconds at its (i+1)-th call. -/
def envOk : Env String :=
  { func := fun _ _ => .ok "ok"
    sink := fun _ _ => none
    clock := fun i => (i : ℚ) }

/-- An operation that raises `ValueError("boom")` (an `Exception`). -/
def envBoom : Env String :=
  { func := fun _ _ => .error (.exception "boom")
    sink := fun _ _ => none
    clock := fun i => (i : ℚ) }

/-- An operation interrupted by `KeyboardInterrupt` (a `BaseException` that
is not an `Exception`). -/
def envKI : Env String :=
  { func := fun _ _ => .error (.baseException "KeyboardInterrupt")
    sink := fun _ _ => none
    clock := fun i => (i : ℚ) }

/-- An operation exited by `SystemExit` (a `BaseException` that is not an
`Exception`). -/
def envSysExit : Env String :=
  { func := fun _ _ => .error (.baseException "SystemExit")
    sink := fun _ _ => none
    clock := fun i => (i : ℚ) }

/-- A wall clock stepped backwards between the two readings (10s, then 5s),
as `time.time()` permits. -/
def envBack : Env String :=
  { func := fun _ _ => .ok "ok"
    sink := fun _ _ => none
    clock := fun i => if i = 0 then 10 else 5 }

/-- A failing operation together with a sink whose `record` call itself
raises. -/
def envSinkFail : Env String :=
  { func := fun _ _ => .error (.exception "boom")
    sink := fun _ _ => some (.exception "sink down")
    clock := fun i => (i : ℚ) }

example : (wrapper envOk [] [("name", "bob")]).outcome = .ok "ok" := rfl
example : (wrapper envOk [] [("name", "bob")]).records
    = [(1000, [("name", "bob")])] := by norm_num [wrapper, envOk]
example : (wrapper envBoom [] [("name", "bob")]).records
    = [(1000, [("name", "bob"), ("error", "boom")])] := by
  norm_num [wrapper, exceptBlock, dictSet, envBoom, PyExc.isException,
    PyExc.toStr]
  decide
example : (wrapper envKI [] [("name", "bob")]).records = [] := rfl
example : (wrapper envBack [] []).records.map Prod.fst = [-5000] := by norm_num [wrapper, envBack]
example : (wrapper envSinkFail [] []).outcome = .error (.exception "sink down") := rfl

/-! ### Path lemmas: what one invocation evaluates to on each exit path -/

/-- If the key is absent, Python dict assignment appends the pair. -/
theorem dictSet_of_not_hasKey (d : AttrDict) (k v : String)
    (h : dictHasKey d k = false) : dictSet d k v = d ++ [(k, v)] := by
  unfold dictSet
  unfold dictHasKey at h
  rw [h]
  simp

/-- The key just assigned is present afterwards. -/
theorem dictHasKey_append_self (d : AttrDict) (k v : String) :
    dictHasKey (d ++ [(k, v)]) k = true := by
  simp [dictHasKey]

/-- Success path (lines 38-41) with a sink that does not raise. -/
theorem wrapper_eq_of_ok {α : Type} (env : Env α) (args : List α)
    (kwargs : AttrDict) (r : α) (hsink : ∀ d a, env.sink d a = none)
    (hok : env.func args kwargs = .ok r) :
    wrapper env args kwargs
      = ⟨.ok r, [((env.clock 1 - env.clock 0) * 1000, kwargs)], kwargs⟩ := by
  simp only [wrapper, hok, hsink]

/-- Failure path (lines 42-46) for an `Exception`-derived failure with a
sink that does not raise. -/
theorem wrapper_eq_of_exc {α : Type} (env : Env α) (args : List α)
    (kwargs : AttrDict) (e : PyExc) (hsink : ∀ d a, env.sink d a = none)
    (herr : env.func args kwargs = .error e) (hexc : e.isException = true) :
    wrapper env args kwargs
      = ⟨.error e,
          [((env.clock 1 - env.clock 0) * 1000, dictSet kwargs "error" e.toStr)],
          dictSet kwargs "error" e.toStr⟩ := by
  simp only [wrapper, herr, hexc, if_true, exceptBlock, hsink, List.nil_append]

/-- A failure that is not an `Exception` bypasses the handler entirely. -/
theorem wrapper_eq_of_baseExc {α : Type} (env : Env α) (args : List α)
    (kwargs : AttrDict) (e : PyExc)
    (herr : env.func args kwargs = .error e) (hexc : e.isException = false) :
    wrapper env args kwargs = ⟨.error e, [], kwargs⟩ := by
  simp only [wrapper, herr, hexc, Bool.false_eq_true, if_false]

/-- On either normal exit path the single recorded duration is the second
`time.time()` reading minus the first, times 1000. -/
theorem wrapper_records_durations {α : Type} (env : Env α) (args : List α)
    (kwargs : AttrDict) (hsink : ∀ d a, env.sink d a = none)
    (hnorm : (∃ r, env.func args kwargs = .ok r)
      ∨ ∃ e, env.func args kwargs = .error e ∧ e.isException = true) :
    (wrapper env args kwargs).records.map Prod.fst
      = [(env.clock 1 - env.clock 0) * 1000] := by
  rcases hnorm with ⟨r, hok⟩ | ⟨e, herr, hexc⟩
  · rw [wrapper_eq_of_ok env args kwargs r hsink hok]; rfl
  · rw [wrapper_eq_of_exc env args kwargs e hsink herr hexc]; rfl

/-! ### Claims -/

/-- C1: for every operation and every input, when the operation succeeds
(the sink behaving, i.e. not raising), the wrapped operation invokes the
operation with the original arguments unmodified and returns exactly the
result the operation returned, unchanged. -/
theorem wrapper_success_result_unchanged {α : Type} (env : Env α)
    (args : List α) (kwargs : AttrDict) (r : α)
    (hsink : ∀ d a, env.sink d a = none)
    (hok : env.func args kwargs = .ok r) :
    (wrapper env args kwargs).outcome = .ok r := by
  rw [wrapper_eq_of_ok env args kwargs r hsink hok]

/-- Witness for C1 at a concrete succeeding call. -/
theorem wrapper_success_result_unchanged_witness :
    (wrapper envOk [] [("name", "bob")]).outcome = .ok "ok" :=
  wrapper_success_result_unchanged envOk [] [("name", "bob")] "ok"
    (fun _ _ => rfl) rfl

/-- C2 counterexample: an operation failing with `KeyboardInterrupt` (a
`BaseException` that is not an `Exception`) is re-signaled unchanged but
the failure is NOT recorded to the sink, so the claim that every failure
is recorded is false as stated. -/
theorem wrapper_base_exc_failure_not_recorded :
    (wrapper envKI [] [("name", "bob")]).outcome
        = .error (.baseException "KeyboardInterrupt")
      ∧ (wrapper envKI [] [("name", "bob")]).records = [] :=
  ⟨rfl, rfl⟩

/-- C2 (amended): every failure is re-signaled unchanged to the caller,
never suppressed, replaced or altered (the sink behaving); it is
additionally recorded to the sink exactly when it is `Exception`-derived. -/
theorem wrapper_failure_resignaled_unchanged {α : Type} (env : Env α)
    (args : List α) (kwargs : AttrDict) (err : PyExc)
    (hsink : ∀ d a, env.sink d a = none)
    (herr : env.func args kwargs = .error err) :
    (wrapper env args kwargs).outcome = .error err
      ∧ ((wrapper env args kwargs).records.length = 1
          ↔ err.isException = true) := by
  cases hexc : err.isException
  · rw [wrapper_eq_of_baseExc env args kwargs err herr hexc]
    exact ⟨rfl, by simp⟩
  · rw [wrapper_eq_of_exc env args kwargs err hsink herr hexc]
    exact ⟨rfl, by simp⟩

/-- Witness for the amended C2 at a concrete `ValueError`-style failure. -/
theorem wrapper_failure_resignaled_unchanged_witness :
    (wrapper envBoom [] [("name", "bob")]).outcome = .error (.exception "boom")
      ∧ ((wrapper envBoom [] [("name", "bob")]).records.length = 1
          ↔ (PyExc.exception "boom").isException = true) :=
  wrapper_failure_resignaled_unchanged envBoom [] [("name", "bob")]
    (.exception "boom") (fun _ _ => rfl) rfl

/-- C3 counterexample: an invocation whose operation raises `SystemExit`
records nothing at all, so "exactly one latency measurement regardless of
success or failure" is false as stated. -/
theorem wrapper_zero_records_on_system_exit :
    (wrapper envSysExit [] [("name", "bob")]).records.length = 0
      ∧ (0 : ℕ) ≠ 1 :=
  ⟨rfl, by decide⟩

/-- C3 (amended): every invocation whose operation either succeeds or
fails with an `Exception`-derived error records exactly one latency
measurement to the sink (the sink behaving); an invocation interrupted by
a non-`Exception` `BaseException` records none. -/
theorem wrapper_exactly_one_record {α : Type} (env : Env α)
    (args : List α) (kwargs : AttrDict)
    (hsink : ∀ d a, env.sink d a = none)
    (hnorm : (∃ r, env.func args kwargs = .ok r)
      ∨ ∃ e, env.func args kwargs = .error e ∧ e.isException = true) :
    (wrapper env args kwargs).records.length = 1 := by
  have h := wrapper_records_durations env args kwargs hsink hnorm
  have : ((wrapper env args kwargs).records.map Prod.fst).length = 1 := by
    rw [h]; rfl
  simpa using this

/-- Witness for the amended C3 at a concrete succeeding call. -/
theorem wrapper_exactly_one_record_witness :
    (wrapper envOk [] [("name", "alice")]).records.length = 1 :=
  wrapper_exactly_one_record envOk [] [("name", "alice")]
    (fun _ _ => rfl) (Or.inl ⟨"ok", rfl⟩)

/-- C4: on both exit paths the single recorded elapsed time is computed in
milliseconds ((end - start) * 1000) from the one start timestamp captured
by the first clock reading, taken before the operation is invoked: the
recorded duration equals (second reading - first reading) * 1000 whether
the operation succeeds or fails. -/
theorem wrapper_single_start_both_paths {α : Type} (env : Env α)
    (args : List α) (kwargs : AttrDict)
    (hsink : ∀ d a, env.sink d a = none)
    (hnorm : (∃ r, env.func args kwargs = .ok r)
      ∨ ∃ e, env.func args kwargs = .error e ∧ e.isException = true) :
    (wrapper env args kwargs).records.map Prod.fst
      = [(env.clock 1 - env.clock 0) * 1000] :=
  wrapper_records_durations env args kwargs hsink hnorm

/-- Witness for C4 at a concrete failing call. -/
theorem wrapper_single_start_both_paths_witness :
    (wrapper envBoom [] [("name", "bob")]).records.map Prod.fst
      = [(envBoom.clock 1 - envBoom.clock 0) * 1000] :=
  wrapper_single_start_both_paths envBoom [] [("name", "bob")]
    (fun _ _ => rfl) (Or.inr ⟨.exception "boom", rfl, rfl⟩)

/-- C5 counterexample: a successful invocation whose keyword arguments
already contain an `error` key records an attribute set that does contain
an `error` key, so "on success it contains no error key" is false as
stated. -/
theorem wrapper_success_attrs_can_contain_error_key :
    (wrapper envOk [] [("error", "x")]).outcome = .ok "ok"
      ∧ (wrapper envOk [] [("error", "x")]).records.map Prod.snd
          = [[("error", "x")]]
      ∧ dictHasKey [("error", "x")] "error" = true :=
  ⟨rfl, rfl, rfl⟩

/-- C5 (amended): provided the named arguments do not already contain an
`error` key (and the sink behaves), the attribute set recorded on success
is exactly the named arguments, with no `error` key, and the attribute set
recorded on an `Exception`-derived failure is that same base set plus
exactly one appended key, `error`, holding `str` of the failure. -/
theorem wrapper_error_key_discipline {α : Type} (env : Env α)
    (args : List α) (kwargs : AttrDict)
    (hsink : ∀ d a, env.sink d a = none)
    (hnk : dictHasKey kwargs "error" = false) :
    (∀ r : α, env.func args kwargs = .ok r →
        (wrapper env args kwargs).records.map Prod.snd = [kwargs])
      ∧ (∀ e : PyExc, env.func args kwargs = .error e → e.isException = true →
          (wrapper env args kwargs).records.map Prod.snd
              = [kwargs ++ [("error", e.toStr)]]
            ∧ dictHasKey (kwargs ++ [("error", e.toStr)]) "error" = true) := by
  constructor
  · intro r hok
    rw [wrapper_eq_of_ok env args kwargs r hsink hok]
    rfl
  · intro e herr hexc
    rw [wrapper_eq_of_exc env args kwargs e hsink herr hexc,
      dictSet_of_not_hasKey kwargs "error" e.toStr hnk]
    exact ⟨rfl, dictHasKey_append_self kwargs "error" e.toStr⟩

/-- Witness for the amended C5 at a concrete call without an `error`
keyword argument. -/
theorem wrapper_error_key_discipline_witness :
    (∀ r : String, envBoom.func [] [("name", "bob")] = .ok r →
        (wrapper envBoom [] [("name", "bob")]).records.map Prod.snd
          = [[("name", "bob")]])
      ∧ (∀ e : PyExc, envBoom.func [] [("name", "bob")] = .error e →
          e.isException = true →
          (wrapper envBoom [] [("name", "bob")]).records.map Prod.snd
              = [[("name", "bob")] ++ [("error", e.toStr)]]
            ∧ dictHasKey ([("name", "bob")] ++ [("error", e.toStr)]) "error"
                = true) :=
  wrapper_error_key_discipline envBoom [] [("name", "bob")]
    (fun _ _ => rfl) rfl

/-- C6 evidence: on the failure path the wrapper augments its
keyword-argument dict in place (line 44, `kwargs["error"] = str(err)`):
after a failing call the wrapper-local argument mapping has gained the
`error` key, which copy-then-extend would never do. -/
theorem wrapper_failure_mutates_kwargs_in_place :
    (wrapper envBoom [] [("name", "bob")]).finalKwargs
        = [("name", "bob"), ("error", "boom")]
      ∧ ([("name", "bob"), ("error", "boom")] : AttrDict) ≠ [("name", "bob")] :=
  ⟨by decide, by decide⟩

/-- C7 counterexample: `time.time()` is a wall clock, not a monotonic one;
with the clock stepped backwards between the two readings the recorded
latency is negative. -/
theorem wrapper_can_record_negative_latency :
    (wrapper envBack [] []).records.map Prod.fst = [-5000]
      ∧ (-5000 : ℚ) < 0 :=
  ⟨by norm_num [wrapper, envBack], by norm_num⟩

/-- C7 (amended): the recorded latency equals the elapsed wall-clock time
in milliseconds, (end - start) * 1000 over the two `time.time()` readings,
and it is nonnegative provided the wall clock did not step backwards
between the readings (which `time.time()`, unlike a monotonic clock, does
not guarantee). -/
theorem wrapper_latency_nonneg_of_monotone_clock {α : Type} (env : Env α)
    (args : List α) (kwargs : AttrDict)
    (hsink : ∀ d a, env.sink d a = none)
    (hnorm : (∃ r, env.func args kwargs = .ok r)
      ∨ ∃ e, env.func args kwargs = .error e ∧ e.isException = true)
    (hmono : env.clock 0 ≤ env.clock 1) :
    (wrapper env args kwargs).records.map Prod.fst
        = [(env.clock 1 - env.clock 0) * 1000]
      ∧ 0 ≤ (env.clock 1 - env.clock 0) * 1000 := by
  refine ⟨wrapper_records_durations env args kwargs hsink hnorm, ?_⟩
  have h : 0 ≤ env.clock 1 - env.clock 0 := sub_nonneg.mpr hmono
  positivity

/-- Witness for the amended C7 at a concrete call under a forward-moving
clock. -/
theorem wrapper_latency_nonneg_of_monotone_clock_witness :
    (wrapper envOk [] [("name", "carol")]).records.map Prod.fst
        = [(envOk.clock 1 - envOk.clock 0) * 1000]
      ∧ 0 ≤ (envOk.clock 1 - envOk.clock 0) * 1000 :=
  wrapper_latency_nonneg_of_monotone_clock envOk [] [("name", "carol")]
    (fun _ _ => rfl) (Or.inl ⟨"ok", rfl⟩) (by norm_num [envOk])

/-- C8: when the sink's `record` call itself raises, that sink failure is
what propagates to the caller, whether the operation succeeded or failed
with an `Exception`-derived error: on the success path the sink exception
escapes (possibly via the handler), and on the failure path it displaces
the operation's own error. -/
theorem wrapper_sink_error_propagates {α : Type} (env : Env α)
    (args : List α) (kwargs : AttrDict) (e2 : PyExc)
    (hsink : ∀ d a, env.sink d a = some e2)
    (hnorm : (∃ r, env.func args kwargs = .ok r)
      ∨ ∃ e, env.func args kwargs = .error e ∧ e.isException = true) :
    (wrapper env args kwargs).outcome = .error e2 := by
  rcases hnorm with ⟨r, hok⟩ | ⟨e, herr, hexc⟩
  · cases hb : e2.isException
    · simp only [wrapper, hok, hsink, hb, Bool.false_eq_true, if_false]
    · simp only [wrapper, hok, hsink, hb, if_true, exceptBlock]
  · simp only [wrapper, herr, hexc, if_true, exceptBlock, hsink]

/-- Witness for C8: the operation raises `boom`, the sink raises
`sink down`, and the caller observes the sink's error, not the
operation's. -/
theorem wrapper_sink_error_propagates_witness :
    (wrapper envSinkFail [] [("name", "bob")]).outcome
      = .error (.exception "sink down") :=
  wrapper_sink_error_propagates envSinkFail [] [("name", "bob")]
    (.exception "sink down") (fun _ _ => rfl)
    (Or.inr ⟨.exception "boom", rfl, rfl⟩)

/-- C10: a failure that is not an instance of `Exception` (such as
`KeyboardInterrupt` or `SystemExit`) bypasses the `except Exception`
handler: nothing is recorded to the sink and the exception propagates
unchanged to the caller. -/
theorem wrapper_base_exception_bypasses_recording {α : Type} (env : Env α)
    (args : List α) (kwargs : AttrDict) (e : PyExc)
    (herr : env.func args kwargs = .error e) (hexc : e.isException = false) :
    (wrapper env args kwargs).outcome = .error e
      ∧ (wrapper env args kwargs).records = [] := by
  rw [wrapper_eq_of_baseExc env args kwargs e herr hexc]
  exact ⟨rfl, rfl⟩

/-- Witness for C10 at a concrete `SystemExit`. -/
theorem wrapper_base_exception_bypasses_recording_witness :
    (wrapper envSysExit [] []).outcome = .error (.baseException "SystemExit")
      ∧ (wrapper envSysExit [] []).records = [] :=
  wrapper_base_exception_bypasses_recording envSysExit [] []
    (.baseException "SystemExit") rfl rfl
